import Mathlib

/-!
Verification development for the wa-notifier ingestion pipeline.

Shallow embedding of the webhook processing pipeline:
scope limiting (handler), content filtering and the duplicate guard
(api/webhook.py), the transactional multi-entity store
(handler/base_handler.py), relevance classification integration
(handler/relevance_checker.py) and the best-effort Slack dispatch
(handler/__init__.py).

Components whose source modules are not present under src (the JID
utilities, the SQLModel row types, the generic upsert helper and the
settings object) are modelled from the specification and carry a doc
comment saying so.
-/

/-- Decidable equality of Except values, used to evaluate concrete
pipeline runs inside witnesses. -/
instance {ε α : Type} [DecidableEq ε] [DecidableEq α] : DecidableEq (Except ε α) := fun a b =>
  match a, b with
  | .error x, .error y =>
    if h : x = y then isTrue (by simp [h]) else isFalse (by simp [h])
  | .error _, .ok _ => isFalse (by simp)
  | .ok _, .error _ => isFalse (by simp)
  | .ok x, .ok y =>
    if h : x = y then isTrue (by simp [h]) else isFalse (by simp [h])

namespace WaNotifier

/-! ## String utilities

Structural (fuel-based) reimplementations of the Python string
operations used by the pipeline, so that every definition is
executable and kernel-reducible. -/

/-- Python truthiness of an optional string: None and the empty string
are falsy, every other string is truthy. -/
def strTruthy : Option String → Bool
  | none => false
  | some s => !(s == "")

/-- Drop leading whitespace characters from a character list. -/
def dropLeadingWs : List Char → List Char
  | [] => []
  | c :: rest => if c.isWhitespace then dropLeadingWs rest else c :: rest

/-- Python str.strip: remove leading and trailing whitespace. -/
def strTrim (s : String) : String :=
  ⟨dropLeadingWs ((dropLeadingWs s.data.reverse).reverse)⟩

/-- Word counter state machine for Python str.split with no separator:
counts maximal runs of non-whitespace characters.  The boolean records
whether the scanner is currently inside a word. -/
def countWordsAux : Bool → List Char → Nat
  | _, [] => 0
  | inWord, c :: rest =>
    if c.isWhitespace then countWordsAux false rest
    else (if inWord then 0 else 1) + countWordsAux true rest

/-- Number of whitespace-separated words of a string, as computed by
Python len(s.strip().split()). -/
def wordCount (t : String) : Nat := countWordsAux false t.data

/-- Fuel-based splitter on a non-empty separator, mirroring Python
str.split(sep).  The accumulator holds the current fragment reversed. -/
def splitSepFuel (sep : List Char) : Nat → List Char → List Char → List (List Char)
  | 0, xs, acc => [acc.reverse ++ xs]
  | fuel + 1, xs, acc =>
    match xs with
    | [] => [acc.reverse]
    | c :: rest =>
      if sep.isPrefixOf (c :: rest) then
        acc.reverse :: splitSepFuel sep fuel ((c :: rest).drop sep.length) []
      else
        splitSepFuel sep fuel rest (c :: acc)

/-- Python s.split(sep) for a non-empty separator sep. -/
def strSplitOn (s : String) (sep : String) : List String :=
  (splitSepFuel sep.data (s.data.length + 1) s.data []).map fun l => ⟨l⟩

/-! ## JID normalizer -/

/-- Modelled from the spec: the module whatsapp/jid.py is not in src.
A provider identifier of the form user[:device]@server (spec section
4.1 and the glossary). -/
structure JID where
  user : String
  device : Option String
  server : String
deriving Repr, DecidableEq

/-- Modelled from the spec: whatsapp/jid.py is not in src.  Parses
user[:device]@server; fails (MalformedIdentifier) when the string has
no server segment (spec section 4.1). -/
def parse_jid (s : String) : Except Unit JID :=
  match strSplitOn s "@" with
  | [userPart, server] =>
    match strSplitOn userPart ":" with
    | [u] => .ok ⟨u, none, server⟩
    | [u, d] => .ok ⟨u, some d, server⟩
    | _ => .error ()
  | _ => .error ()

/-- Modelled from the spec: whatsapp/jid.py is not in src.  An
identifier is a group identifier when its server segment is the
provider group domain g.us (spec section 4.1; the repository tests use
the suffix g.us). -/
def JID.is_group (j : JID) : Bool := j.server == "g.us"

/-- Modelled from the spec: whatsapp/jid.py is not in src.  Canonical
form strips the device component (spec section 4.1). -/
def JID.to_non_ad (j : JID) : JID := { j with device := none }

/-- Modelled from the spec: whatsapp/jid.py is not in src.  Rendering
of a JID back to a string, as used for storage and comparison. -/
def JID.toStr (j : JID) : String :=
  match j.device with
  | none => j.user ++ "@" ++ j.server
  | some d => j.user ++ ":" ++ d ++ "@" ++ j.server

/-! ## Webhook payload (models/webhook.py is not in src) -/

/-- Modelled from the spec: models/webhook.py is not in src.  Nested
context info of a payload message, carrying a group-subject hint
(spec section 6). -/
structure ContextInfo where
  group_subject : Option String
deriving Repr, DecidableEq

/-- Modelled from the spec: models/webhook.py is not in src.  The
message object of a webhook payload: id, optional text, optional
context info (spec section 6). -/
structure PayloadMessage where
  id : String
  text : Option String
  context_info : Option ContextInfo
deriving Repr, DecidableEq

/-- Modelled from the spec: models/webhook.py is not in src.  Inbound
webhook payload (spec section 6): from field ("sender in chat" or bare
chat), ISO timestamp (modelled as integer seconds), pushname, message
object, optional top-level group subject.  Timestamps are integers so
that the freshness comparison is exact. -/
structure WhatsAppWebhookPayload where
  from_ : Option String
  timestamp : Int
  pushname : Option String
  message : Option PayloadMessage
  group_subject : Option String
deriving Repr, DecidableEq

/-! ## Stored rows (models/sender.py, models/group.py, models/message.py are not in src) -/

/-- Modelled from the spec: models/sender.py is not in src.  Sender
row: jid primary key, optional display name (spec section 3). -/
structure Sender where
  jid : String
  push_name : Option String
deriving Repr, DecidableEq

/-- Modelled from the spec: models/group.py is not in src.  Group row:
group_jid primary key, optional name (spec section 3). -/
structure Group where
  group_jid : String
  group_name : Option String
deriving Repr, DecidableEq

/-- Modelled from the spec: models/message.py is not in src.  Message
row (spec section 3): message_id primary key, timestamp, optional
text, optional media reference, chat_jid, sender_jid, optional
group_jid, and the classification sub-record, all null until
classification runs. -/
structure Message where
  message_id : String
  timestamp : Int
  text : Option String
  chat_jid : String
  sender_jid : String
  group_jid : Option String
  media_url : Option String := none
  is_relevant : Option Bool := none
  reasoning : Option String := none
  relevancy_total_token_count : Option Nat := none
  relevancy_input_tokens : Option Nat := none
  relevancy_output_tokens : Option Nat := none
deriving Repr, DecidableEq

/-- The visible database state: the three entity tables written by the
pipeline (spec section 3). -/
structure DB where
  senders : List Sender
  groups : List Group
  messages : List Message
deriving Repr, DecidableEq

def DB.getSender (db : DB) (j : String) : Option Sender :=
  db.senders.find? fun s => s.jid == j

def DB.getGroup (db : DB) (g : String) : Option Group :=
  db.groups.find? fun x => x.group_jid == g

def DB.getMessage (db : DB) (i : String) : Option Message :=
  db.messages.find? fun m => m.message_id == i

/-- Modelled from the spec: models/upsert.py is not in src.  Idempotent
get-or-create for a Sender (spec section 4.5): attempt creation, and on
a uniqueness conflict resolve to the already existing row instead of
failing. -/
def DB.upsertSender (db : DB) (s : Sender) : DB :=
  if (db.getSender s.jid).isSome then db
  else { db with senders := s :: db.senders }

/-- Modelled from the spec: models/upsert.py is not in src.  Idempotent
get-or-create for a Group (spec section 4.5). -/
def DB.upsertGroup (db : DB) (g : Group) : DB :=
  if (db.getGroup g.group_jid).isSome then db
  else { db with groups := g :: db.groups }

/-- Modelled from the spec: models/upsert.py is not in src.  Upsert of
a Message row keyed on message_id: replace the row with the same key
when present, insert otherwise. -/
def DB.upsertMessage (db : DB) (m : Message) : DB :=
  { db with
    messages := m :: db.messages.filter fun x => !(x.message_id == m.message_id) }

/-! ## Settings (config.py is not in src) -/

/-- Modelled from the spec: config.py is not in src.  The two settings
the pipeline reads: the optional single-group restriction (spec
section 4.2) and the notification endpoint URL (spec section 4.7). -/
structure Settings where
  limit_to_group_id : Option String
  slack_webhook_url : String
deriving Repr, DecidableEq

/-! ## Ingest filter chain and duplicate guard (src/api/webhook.py) -/

/-- Freshness window of the staleness filter: 4 days in seconds
(webhook.py, timedelta(days=4)). -/
def FRESHNESS_WINDOW : Int := 4 * 86400

/-- Embedding of should_process_message (src/api/webhook.py lines
40-72).  The first component is the boolean the source returns; the
second component instruments the same control flow and records whether
the duplicate-guard storage lookup (session.get on Message) was
executed on this run. -/
def should_process_message (now : Int) (p : WhatsAppWebhookPayload) (db : DB) :
    Bool × Bool :=
  if p.timestamp < now - FRESHNESS_WINDOW then (false, false)
  else
    match p.message with
    | none => (false, false)
    | some m =>
      match m.text with
      | none => (false, false)
      | some t =>
        if t == "" then (false, false)
        else if wordCount t ≤ 2 then (false, false)
        else if (db.getMessage m.id).isSome then (false, true)
        else (true, true)

/-! ## Group extraction and the scope limiter (src/handler/__init__.py) -/

/-- Embedding of MessageHandler._extract_group_jid
(src/handler/__init__.py lines 20-35).  The error value models the
exceptions the Python code can raise there: the ValueError from
unpacking a from field with more than one " in " separator, and the
malformed-identifier failure of parse_jid. -/
def extract_group_jid (p : WhatsAppWebhookPayload) : Except Unit (Option String) :=
  match p.from_ with
  | none => .ok none
  | some f =>
    if f == "" then .ok none
    else
      let parts := strSplitOn f " in "
      let chatRes : Except Unit String :=
        if 2 ≤ parts.length then
          match parts with
          | [_sender, c] => .ok c
          | _ => .error ()
        else .ok f
      match chatRes with
      | .error e => .error e
      | .ok chat =>
        match parse_jid chat with
        | .error e => .error e
        | .ok jid => .ok (if jid.is_group then some jid.to_non_ad.toStr else none)

/-- The scope-limiter decision at the top of MessageHandler.__call__
(src/handler/__init__.py lines 42-50): drop when a restriction is
configured (truthy), the payload is a group message (truthy group
jid), and the canonical group jid differs from the configured one. -/
def scope_drop (limit : Option String) (p : WhatsAppWebhookPayload) :
    Except Unit Bool :=
  if strTruthy limit then
    match extract_group_jid p with
    | .error e => .error e
    | .ok gj => .ok (strTruthy gj && !(gj == limit))
  else .ok false

/-! ## Entity upsert store (src/handler/base_handler.py) -/

/-- Modelled from the spec: models/message.py (Message.from_webhook) is
not in src.  Builds the Message candidate from a payload (spec
sections 3, 4.1, 4.5, 6): the from field is either
"sender in chat" or a bare chat identifier (in which case the chat is
also the sender), both identifiers are parsed and canonicalized
(device stripped), and group_jid is the canonical chat identifier when
the chat is a group.  Fails when the payload has no message object, no
from field, or a malformed identifier.  The helper builds the
candidate row from the parsed sender and chat identifier strings. -/
def message_from_parts (p : WhatsAppWebhookPayload) (pm : PayloadMessage)
    (senderStr chatStr : String) : Except Unit Message :=
  match parse_jid senderStr, parse_jid chatStr with
  | .ok sj, .ok cj =>
    .ok { message_id := pm.id
          timestamp := p.timestamp
          text := pm.text
          chat_jid := cj.to_non_ad.toStr
          sender_jid := sj.to_non_ad.toStr
          group_jid := if cj.is_group then some cj.to_non_ad.toStr else none }
  | _, _ => .error ()

/-- Modelled from the spec: models/message.py is not in src.  Splits
the from field on " in " into sender and chat parts, a bare chat
identifier standing for both, and delegates to message_from_parts. -/
def Message.from_webhook (p : WhatsAppWebhookPayload) : Except Unit Message :=
  match p.message, p.from_ with
  | some pm, some f =>
    match strSplitOn f " in " with
    | [c] => message_from_parts p pm c c
    | [s, c] => message_from_parts p pm s c
    | _ => .error ()
  | _, _ => .error ()

/-- Sender step of BaseHandler.store_message (base_handler.py lines
49-60): fetch the Sender by the normalized jid; when absent, create it
with the payload pushname and flush. -/
def ensure_sender (p : WhatsAppWebhookPayload) (m : Message) (db : DB) : DB :=
  match db.getSender m.sender_jid with
  | some _ => db
  | none => db.upsertSender ⟨m.sender_jid, p.pushname⟩

/-- Group-name extraction of BaseHandler.store_message (base_handler.py
lines 65-75): the top-level group_subject when truthy, otherwise the
context-info group subject when a context info is present. -/
def extract_group_name (p : WhatsAppWebhookPayload) : Option String :=
  if strTruthy p.group_subject then p.group_subject
  else
    match p.message with
    | some pm =>
      match pm.context_info with
      | some ci => ci.group_subject
      | none => none
    | none => none

/-- Group step of BaseHandler.store_message (base_handler.py lines
62-79): when the message carries a truthy group_jid, fetch the Group;
when absent, create it with the best-effort name and flush. -/
def ensure_group (p : WhatsAppWebhookPayload) (m : Message) (db : DB) : DB :=
  match m.group_jid with
  | none => db
  | some g =>
    if g == "" then db
    else
      match db.getGroup g with
      | some _ => db
      | none => db.upsertGroup ⟨g, extract_group_name p⟩

/-- Embedding of BaseHandler.store_message (base_handler.py lines
43-81) as called by the handler (the argument is the webhook payload).
The whole unit runs inside session.begin_nested(): a failure at the
final Message insert (injected through msg_insert_fails, modelling a
PersistenceFailure) rolls the savepoint back, so the returned state is
the original db and the error propagates. -/
def store_message (msg_insert_fails : Bool) (p : WhatsAppWebhookPayload)
    (db : DB) : DB × Except Unit Message :=
  match Message.from_webhook p with
  | .error e => (db, .error e)
  | .ok m =>
    let db1 := ensure_sender p m db
    let db2 := ensure_group p m db1
    if msg_insert_fails then (db, .error ())
    else (db2.upsertMessage m, .ok m)

/-! ## Relevance classifier integration (src/handler/relevance_checker.py) -/

/-- Environment of one call to the classifier: the module-level chain
is unavailable (no API key), or the LLM round-trip succeeds with a
decision, reasoning and token usage, or it raises a runtime error with
message e. -/
inductive ClassifierEnv where
  | unavailable
  | succeeds (decision : Bool) (reasoning : String)
      (total_tokens input_tokens output_tokens : Option Nat)
  | raises (e : String)
deriving Repr, DecidableEq

/-- Embedding of should_notify (relevance_checker.py lines 121-153):
empty or whitespace-only text short-circuits to "Empty message"; a
missing API key short-circuits to "API key not available"; a runtime
error is caught and mapped to a diagnostic string with a false flag;
otherwise the decision of the chain is returned with its token
counts. -/
def should_notify (env : ClassifierEnv) (message_text : String) :
    Bool × String × Option Nat × Option Nat × Option Nat :=
  if message_text == "" || strTrim message_text == "" then
    (false, "Empty message", none, none, none)
  else
    match env with
    | .unavailable => (false, "API key not available", none, none, none)
    | .succeeds d r t i o => (d, r, t, i, o)
    | .raises e => (false, "Analysis failed: " ++ e, none, none, none)

/-! ## Message handler (src/handler/__init__.py) -/

/-- Observable outcome of one MessageHandler.__call__ run: the final
database, whether the scope limiter dropped the payload, the final
stored Message row (after the classification update, when one
happened), whether should_notify was called, and whether the Slack
dispatch was attempted and succeeded. -/
structure HandlerResult where
  db : DB
  scope_dropped : Bool
  stored : Option Message
  classifier_called : Bool
  notify_attempted : Bool
  notify_succeeded : Bool
deriving Repr, DecidableEq

/-- Field assignments of MessageHandler.__call__ lines 72-77: write
the classification outcome onto the stored message before the
commit. -/
def classified_update (env : ClassifierEnv) (t : String) (m : Message) : Message :=
  { m with
    is_relevant := some (should_notify env t).1
    reasoning := some (should_notify env t).2.1
    relevancy_total_token_count := (should_notify env t).2.2.1
    relevancy_input_tokens := (should_notify env t).2.2.2.1
    relevancy_output_tokens := (should_notify env t).2.2.2.2 }

/-- Classification and dispatch stages of MessageHandler.__call__
(handler/__init__.py lines 56-103), after the message was stored:
classification runs only when the stored message has truthy text and a
truthy group_jid; its outcome is written onto the message and
committed; the Slack post is attempted only when the decision is true,
and its failure (slack_ok = false) is caught. -/
def classify_stage (env : ClassifierEnv) (slack_ok : Bool) (m : Message)
    (db1 : DB) : HandlerResult :=
  if strTruthy m.text then
    match m.group_jid with
    | some g =>
      if g == "" then ⟨db1, false, some m, false, false, false⟩
      else
        let m2 := classified_update env (m.text.getD "") m
        let db2 := db1.upsertMessage m2
        if (should_notify env (m.text.getD "")).1 then
          ⟨db2, false, some m2, true, true, slack_ok⟩
        else ⟨db2, false, some m2, true, false, false⟩
    | none => ⟨db1, false, some m, false, false, false⟩
  else ⟨db1, false, some m, false, false, false⟩

/-- Embedding of MessageHandler.__call__ (handler/__init__.py lines
37-103): scope limiter first (inside the handler), then the
transactional store, then classification and dispatch.  Errors of the
group extraction or of the store propagate to the caller. -/
def MessageHandler.call (settings : Settings) (env : ClassifierEnv)
    (slack_ok msg_insert_fails : Bool) (p : WhatsAppWebhookPayload)
    (db : DB) : Except Unit HandlerResult :=
  match scope_drop settings.limit_to_group_id p with
  | .error e => .error e
  | .ok true => .ok ⟨db, true, none, false, false, false⟩
  | .ok false =>
    match store_message msg_insert_fails p db with
    | (_, .error e) => .error e
    | (db1, .ok m) => .ok (classify_stage env slack_ok m db1)

/-! ## Webhook endpoint (src/api/webhook.py) -/

/-- Observable outcome of one POST /webhook request: the response
body, the final database, whether should_process_message was
evaluated, whether the duplicate-guard lookup ran, whether the handler
was invoked, and the handler flags (all false when it was not). -/
structure WebhookResult where
  response : String
  db : DB
  filters_evaluated : Bool
  dup_lookup_performed : Bool
  handler_invoked : Bool
  scope_dropped : Bool
  stored : Option Message
  classifier_called : Bool
  notify_attempted : Bool
  notify_succeeded : Bool
deriving Repr, DecidableEq

/-- Embedding of the webhook endpoint (webhook.py lines 19-37): when
the from field is truthy, evaluate should_process_message and, when it
passes, run the handler; always answer "ok" unless an exception
escapes the handler. -/
def webhook (settings : Settings) (env : ClassifierEnv)
    (slack_ok msg_insert_fails : Bool) (now : Int)
    (p : WhatsAppWebhookPayload) (db : DB) : Except Unit WebhookResult :=
  if strTruthy p.from_ then
    let sp := should_process_message now p db
    if sp.1 then
      match MessageHandler.call settings env slack_ok msg_insert_fails p db with
      | .error e => .error e
      | .ok h =>
        .ok ⟨"ok", h.db, true, sp.2, true, h.scope_dropped, h.stored,
             h.classifier_called, h.notify_attempted, h.notify_succeeded⟩
    else .ok ⟨"ok", db, true, sp.2, false, false, none, false, false, false⟩
  else .ok ⟨"ok", db, false, false, false, false, none, false, false, false⟩

/-! ## Race model for Sender/Group creation (spec sections 4.5, 5) -/

/-- Modelled from the spec: store_message with a concurrent delivery
committing the Group row g0 between the Group lookup of this unit
(which saw no row) and the Group create of this unit.  Per spec
section 4.5 the
create then hits a uniqueness conflict, which the idempotent upsert
resolves by re-fetching the existing row instead of failing. -/
def store_message_group_race (g0 : Group) (p : WhatsAppWebhookPayload)
    (db : DB) : DB × Except Unit Message :=
  match Message.from_webhook p with
  | .error e => (db, .error e)
  | .ok m =>
    let db1 := ensure_sender p m db
    match m.group_jid with
    | none => (db1.upsertMessage m, .ok m)
    | some g =>
      if g == "" then (db1.upsertMessage m, .ok m)
      else
        match db1.getGroup g with
        | some _ => (db1.upsertMessage m, .ok m)
        | none =>
          let dbRace := { db1 with groups := g0 :: db1.groups }
          let db2 := dbRace.upsertGroup ⟨g, extract_group_name p⟩
          (db2.upsertMessage m, .ok m)

/-- Modelled from the spec: store_message with a concurrent delivery
committing the Sender row s0 between the Sender lookup of this unit
(which saw no row) and the Sender create of this unit.  Per spec
section 4.5 the create then hits a uniqueness conflict, which the
idempotent upsert resolves by re-fetching the existing row instead of
failing. -/
def store_message_sender_race (s0 : Sender) (p : WhatsAppWebhookPayload)
    (db : DB) : DB × Except Unit Message :=
  match Message.from_webhook p with
  | .error e => (db, .error e)
  | .ok m =>
    let db1 :=
      match db.getSender m.sender_jid with
      | some _ => db
      | none =>
        ({ db with senders := s0 :: db.senders } : DB).upsertSender
          ⟨m.sender_jid, p.pushname⟩
    let db2 := ensure_group p m db1
    (db2.upsertMessage m, .ok m)

/-! ## Derived predicates used in the claim statements -/

/-- Referential integrity of the store (spec section 3, invariant a):
every visible Message resolves its sender_jid to a Sender row and its
group_jid, when present, to a Group row. -/
def DB.refIntegrity (db : DB) : Prop :=
  ∀ m ∈ db.messages,
    (db.getSender m.sender_jid).isSome = true ∧
    ∀ g, m.group_jid = some g → (db.getGroup g).isSome = true

/-- The three cheap filters of the ingest chain (staleness, content
type, minimum length) all pass for a payload. -/
def filtersPass (now : Int) (p : WhatsAppWebhookPayload) : Bool :=
  !(p.timestamp < now - FRESHNESS_WINDOW) &&
  (match p.message with
   | none => false
   | some m =>
     match m.text with
     | none => false
     | some t => !(t == "") && 2 < wordCount t)

/-- The duplicate guard would find an already stored row for this
payload: the payload has a message object whose id is an existing
Message primary key. -/
def dupFound (p : WhatsAppWebhookPayload) (db : DB) : Bool :=
  match p.message with
  | none => false
  | some pm => (db.getMessage pm.id).isSome

/-- A payload carrying no message body, no text, or text of at most
two whitespace-separated words (spec sections 4.3, 8). -/
def noTextOrShort (p : WhatsAppWebhookPayload) : Bool :=
  match p.message with
  | none => true
  | some m =>
    match m.text with
    | none => true
    | some t => t == "" || wordCount t ≤ 2

/-! ## Concrete scenario inputs (spec section 8) -/

/-- The empty initial store. -/
def emptyDB : DB := ⟨[], [], []⟩

/-- Settings with no group restriction configured. -/
def settingsNone : Settings := ⟨none, "https://hooks.example/x"⟩

/-- Settings restricting ingestion to the group 222@g.us
(spec scenario D). -/
def settings222 : Settings := ⟨some "222@g.us", "https://hooks.example/x"⟩

/-- Scenario A payload: fresh group message M1 from sender 111 in
group 222 with recruitment text. -/
def payloadA : WhatsAppWebhookPayload :=
  { from_ := some "111@s.whatsapp.net in 222@g.us"
    timestamp := 0
    pushname := some "Alice"
    message := some { id := "M1", text := some "Looking for a React developer now",
                      context_info := none }
    group_subject := some "Dev Jobs" }

/-- Scenario C payload: two-word text "hi there". -/
def payloadC : WhatsAppWebhookPayload :=
  { from_ := some "111@s.whatsapp.net in 222@g.us"
    timestamp := 0
    pushname := some "Carl"
    message := some { id := "MC", text := some "hi there", context_info := none }
    group_subject := none }

/-- Scenario D payload: group message from 333@g.us, outside the
configured group 222@g.us. -/
def payloadD : WhatsAppWebhookPayload :=
  { from_ := some "111@s.whatsapp.net in 333@g.us"
    timestamp := 0
    pushname := some "Dana"
    message := some { id := "MD", text := some "three word message", context_info := none }
    group_subject := none }

/-- A store already holding the Message row M1, used to exercise the
duplicate guard (spec scenario B). -/
def dbWithM1 : DB :=
  ⟨[], [],
   [{ message_id := "M1", timestamp := 0, text := some "x",
      chat_jid := "222@g.us", sender_jid := "111@s.whatsapp.net",
      group_jid := some "222@g.us" }]⟩

/-- A payload with no sender field at all. -/
def payloadNoFrom : WhatsAppWebhookPayload :=
  { from_ := none
    timestamp := 0
    pushname := none
    message := some { id := "MF", text := some "some longer text here", context_info := none }
    group_subject := none }

/-- A concrete racing Group row for the get-or-create race scenario. -/
def racingGroup222 : Group := ⟨"222@g.us", some "Racing Name"⟩

/-- A concrete racing Sender row for the get-or-create race
scenario. -/
def racingSender111 : Sender := ⟨"111@s.whatsapp.net", some "Racer"⟩

/-- A direct (non-group) payload: bare chat identifier on the user
server. -/
def payloadDirect : WhatsAppWebhookPayload :=
  { from_ := some "111@s.whatsapp.net"
    timestamp := 0
    pushname := some "Dan"
    message := some { id := "MDM", text := some "hello there my friend", context_info := none }
    group_subject := none }

/-- The Message candidate built from the direct payload. -/
def msgDirect : Message :=
  { message_id := "MDM", timestamp := 0
    text := some "hello there my friend"
    chat_jid := "111@s.whatsapp.net", sender_jid := "111@s.whatsapp.net"
    group_jid := none }

/-- Handler outcome for the direct payload: stored, no classification,
no notification. -/
def resultDirect : HandlerResult :=
  ⟨⟨[⟨"111@s.whatsapp.net", some "Dan"⟩], [], [msgDirect]⟩,
   false, some msgDirect, false, false, false⟩

/-- The Sender row created for scenario A. -/
def senderA : Sender := ⟨"111@s.whatsapp.net", some "Alice"⟩

/-- The Group row created for scenario A. -/
def groupA : Group := ⟨"222@g.us", some "Dev Jobs"⟩

/-- The Message candidate built from the scenario A payload. -/
def msgA : Message :=
  { message_id := "M1", timestamp := 0
    text := some "Looking for a React developer now"
    chat_jid := "222@g.us", sender_jid := "111@s.whatsapp.net"
    group_jid := some "222@g.us" }

/-- The scenario A message after classification with the classifier
unavailable. -/
def msgA_unavail : Message :=
  classified_update .unavailable "Looking for a React developer now" msgA

/-- The scenario A message after classification raising the runtime
error boom. -/
def msgA_boom : Message :=
  classified_update (.raises "boom") "Looking for a React developer now" msgA

/-- The scenario A message after a successful relevant
classification. -/
def msgA_relevant : Message :=
  classified_update (.succeeds true "match" (some 10) (some 6) (some 4))
    "Looking for a React developer now" msgA

/-- Handler outcome of scenario A with the classifier unavailable. -/
def resultA_unavail : HandlerResult :=
  ⟨⟨[senderA], [groupA], [msgA_unavail]⟩, false, some msgA_unavail, true, false, false⟩

/-- Handler outcome of scenario A when the classifier raises boom. -/
def resultA_boom : HandlerResult :=
  ⟨⟨[senderA], [groupA], [msgA_boom]⟩, false, some msgA_boom, true, false, false⟩

/-- Handler outcome of scenario A with a successful relevant
classification and a successful Slack post. -/
def resultA_relevant : HandlerResult :=
  ⟨⟨[senderA], [groupA], [msgA_relevant]⟩, false, some msgA_relevant, true, true, true⟩

/-! ## Helper lemmas about the store operations -/

theorem append_at_ne_empty (u s : String) : u ++ "@" ++ s ≠ "" := by
  intro h
  have h2 := congrArg String.length h
  simp [String.length_append] at h2
  exact absurd h2.1.2 (by decide)

theorem toStr_non_ad_ne_empty (j : JID) : j.to_non_ad.toStr ≠ "" := by
  simp only [JID.to_non_ad, JID.toStr]
  exact append_at_ne_empty j.user j.server

theorem message_from_parts_shape (p : WhatsAppWebhookPayload) (pm : PayloadMessage)
    (a b : String) (m : Message) (h : message_from_parts p pm a b = .ok m) :
    m.is_relevant = none ∧ m.reasoning = none ∧
    m.relevancy_total_token_count = none ∧ m.relevancy_input_tokens = none ∧
    m.relevancy_output_tokens = none ∧
    ∀ g, m.group_jid = some g → g ≠ "" := by
  unfold message_from_parts at h
  repeat split at h
  all_goals try exact Except.noConfusion h
  all_goals injection h with h
  all_goals subst h
  all_goals refine ⟨rfl, rfl, rfl, rfl, rfl, fun g hg => ?_⟩
  all_goals dsimp only at hg
  · injection hg with hg
    subst hg
    exact toStr_non_ad_ne_empty _
  · exact Option.noConfusion hg

theorem from_webhook_shape (p : WhatsAppWebhookPayload) (m : Message)
    (h : Message.from_webhook p = .ok m) :
    m.is_relevant = none ∧ m.reasoning = none ∧
    m.relevancy_total_token_count = none ∧ m.relevancy_input_tokens = none ∧
    m.relevancy_output_tokens = none ∧
    ∀ g, m.group_jid = some g → g ≠ "" := by
  unfold Message.from_webhook at h
  repeat split at h
  all_goals try exact message_from_parts_shape _ _ _ _ _ h
  all_goals exact Except.noConfusion h

theorem getSender_upsertSender_self (db : DB) (s : Sender) :
    ((db.upsertSender s).getSender s.jid).isSome = true := by
  unfold DB.upsertSender
  split
  · assumption
  · simp [DB.getSender, List.find?]

theorem getSender_upsertSender_mono (db : DB) (s : Sender) (j : String)
    (h : (db.getSender j).isSome = true) :
    ((db.upsertSender s).getSender j).isSome = true := by
  unfold DB.upsertSender
  split
  · exact h
  · unfold DB.getSender at h ⊢
    simp only [List.find?]
    split
    · simp
    · exact h

theorem upsertSender_groups (db : DB) (s : Sender) :
    (db.upsertSender s).groups = db.groups := by
  unfold DB.upsertSender; split <;> rfl

theorem upsertSender_messages (db : DB) (s : Sender) :
    (db.upsertSender s).messages = db.messages := by
  unfold DB.upsertSender; split <;> rfl

theorem getGroup_upsertGroup_self (db : DB) (g : Group) :
    ((db.upsertGroup g).getGroup g.group_jid).isSome = true := by
  unfold DB.upsertGroup
  split
  · assumption
  · simp [DB.getGroup, List.find?]

theorem getGroup_upsertGroup_mono (db : DB) (g : Group) (j : String)
    (h : (db.getGroup j).isSome = true) :
    ((db.upsertGroup g).getGroup j).isSome = true := by
  unfold DB.upsertGroup
  split
  · exact h
  · unfold DB.getGroup at h ⊢
    simp only [List.find?]
    split
    · simp
    · exact h

theorem upsertGroup_senders (db : DB) (g : Group) :
    (db.upsertGroup g).senders = db.senders := by
  unfold DB.upsertGroup; split <;> rfl

theorem upsertGroup_messages (db : DB) (g : Group) :
    (db.upsertGroup g).messages = db.messages := by
  unfold DB.upsertGroup; split <;> rfl

theorem getSender_eq_of_senders_eq (db db2 : DB) (j : String)
    (h : db2.senders = db.senders) : db2.getSender j = db.getSender j := by
  unfold DB.getSender; rw [h]

theorem getGroup_eq_of_groups_eq (db db2 : DB) (j : String)
    (h : db2.groups = db.groups) : db2.getGroup j = db.getGroup j := by
  unfold DB.getGroup; rw [h]

theorem ensure_sender_self (p : WhatsAppWebhookPayload) (m : Message) (db : DB) :
    ((ensure_sender p m db).getSender m.sender_jid).isSome = true := by
  unfold ensure_sender
  split
  case _ s hs => rw [hs]; rfl
  case _ hs => exact getSender_upsertSender_self db _

theorem ensure_sender_mono (p : WhatsAppWebhookPayload) (m : Message) (db : DB)
    (j : String) (h : (db.getSender j).isSome = true) :
    ((ensure_sender p m db).getSender j).isSome = true := by
  unfold ensure_sender
  split
  · exact h
  · exact getSender_upsertSender_mono db _ j h

theorem ensure_sender_groups (p : WhatsAppWebhookPayload) (m : Message) (db : DB) :
    (ensure_sender p m db).groups = db.groups := by
  unfold ensure_sender; split
  · rfl
  · exact upsertSender_groups db _

theorem ensure_sender_messages (p : WhatsAppWebhookPayload) (m : Message) (db : DB) :
    (ensure_sender p m db).messages = db.messages := by
  unfold ensure_sender; split
  · rfl
  · exact upsertSender_messages db _

theorem ensure_group_self (p : WhatsAppWebhookPayload) (m : Message) (db : DB)
    (g : String) (hg : m.group_jid = some g) (hne : g ≠ "") :
    ((ensure_group p m db).getGroup g).isSome = true := by
  unfold ensure_group
  rw [hg]
  simp only [hne, beq_iff_eq, if_false]
  split
  case _ x hx => rw [hx]; rfl
  case _ hx => exact getGroup_upsertGroup_self db _

theorem ensure_group_mono (p : WhatsAppWebhookPayload) (m : Message) (db : DB)
    (j : String) (h : (db.getGroup j).isSome = true) :
    ((ensure_group p m db).getGroup j).isSome = true := by
  unfold ensure_group
  split
  · exact h
  · split
    · exact h
    · split
      · exact h
      · exact getGroup_upsertGroup_mono db _ j h

theorem ensure_group_senders (p : WhatsAppWebhookPayload) (m : Message) (db : DB) :
    (ensure_group p m db).senders = db.senders := by
  unfold ensure_group
  split
  · rfl
  · split
    · rfl
    · split
      · rfl
      · exact upsertGroup_senders db _

theorem ensure_group_messages (p : WhatsAppWebhookPayload) (m : Message) (db : DB) :
    (ensure_group p m db).messages = db.messages := by
  unfold ensure_group
  split
  · rfl
  · split
    · rfl
    · split
      · rfl
      · exact upsertGroup_messages db _

theorem upsertMessage_senders (db : DB) (m : Message) :
    (db.upsertMessage m).senders = db.senders := rfl

theorem upsertMessage_groups (db : DB) (m : Message) :
    (db.upsertMessage m).groups = db.groups := rfl

theorem mem_upsertMessage (db : DB) (m x : Message)
    (hx : x ∈ (db.upsertMessage m).messages) : x = m ∨ x ∈ db.messages := by
  unfold DB.upsertMessage at hx
  simp only [List.mem_cons] at hx
  rcases hx with h | h
  · exact Or.inl h
  · exact Or.inr (List.mem_of_mem_filter h)

theorem self_mem_upsertMessage (db : DB) (m : Message) :
    m ∈ (db.upsertMessage m).messages := by
  unfold DB.upsertMessage
  exact List.mem_cons_self _ _

theorem getMessage_upsertMessage_self (db : DB) (m : Message) :
    ((db.upsertMessage m).getMessage m.message_id).isSome = true := by
  unfold DB.upsertMessage DB.getMessage
  simp [List.find?]

theorem getGroup_none_countP (db : DB) (g : String) (h : db.getGroup g = none) :
    db.groups.countP (fun x => x.group_jid == g) = 0 := by
  unfold DB.getGroup at h
  rw [List.find?_eq_none] at h
  rw [List.countP_eq_zero]
  exact h

theorem getSender_none_countP (db : DB) (j : String) (h : db.getSender j = none) :
    db.senders.countP (fun x => x.jid == j) = 0 := by
  unfold DB.getSender at h
  rw [List.find?_eq_none] at h
  rw [List.countP_eq_zero]
  exact h

/-! ## Helper lemmas about the filter chain -/

theorem spm_characterize (now : Int) (p : WhatsAppWebhookPayload) (db : DB) :
    should_process_message now p db =
      if filtersPass now p then (!(dupFound p db), true) else (false, false) := by
  by_cases hfresh : p.timestamp < now - FRESHNESS_WINDOW
  · simp [should_process_message, filtersPass, hfresh]
  · cases hpm : p.message with
    | none => simp [should_process_message, filtersPass, hfresh, hpm]
    | some pm =>
      cases htext : pm.text with
      | none => simp [should_process_message, filtersPass, hfresh, hpm, htext]
      | some t =>
        by_cases hemp : t = ""
        · simp [should_process_message, filtersPass, hfresh, hpm, htext, hemp]
        · by_cases hwc : wordCount t ≤ 2
          · have hwc2 : ¬(2 < wordCount t) := by omega
            simp [should_process_message, filtersPass, dupFound,
              hfresh, hpm, htext, hemp, hwc, hwc2]
          · have hwc2 : 2 < wordCount t := by omega
            by_cases hdup : (db.getMessage pm.id).isSome = true
            · simp [should_process_message, filtersPass, dupFound,
                hfresh, hpm, htext, hemp, hwc, hwc2, hdup]
            · simp [should_process_message, filtersPass, dupFound,
                hfresh, hpm, htext, hemp, hwc, hwc2, hdup]

theorem spm_lookup_filters (now : Int) (p : WhatsAppWebhookPayload) (db : DB)
    (h : (should_process_message now p db).2 = true) : filtersPass now p = true := by
  rw [spm_characterize] at h
  by_cases hf : filtersPass now p = true
  · exact hf
  · rw [if_neg hf] at h
    simp at h

theorem spm_proceed_pair (now : Int) (p : WhatsAppWebhookPayload) (db : DB)
    (h : (should_process_message now p db).1 = true) :
    should_process_message now p db = (true, true) := by
  rw [spm_characterize] at h ⊢
  by_cases hf : filtersPass now p = true
  · rw [if_pos hf] at h ⊢
    simp at h
    simp [h]
  · rw [if_neg hf] at h
    simp at h

theorem filtersPass_false_of_reject (now : Int) (p : WhatsAppWebhookPayload)
    (h : p.timestamp < now - FRESHNESS_WINDOW ∨ noTextOrShort p = true) :
    filtersPass now p = false := by
  unfold filtersPass
  rcases h with h | h
  · simp [h]
  · unfold noTextOrShort at h
    cases hpm : p.message with
    | none => simp
    | some pm =>
      rw [hpm] at h
      dsimp only at h
      cases htext : pm.text with
      | none => simp [htext]
      | some t =>
        rw [htext] at h
        dsimp only at h
        simp only [htext]
        rcases Bool.or_eq_true_iff.mp h with he | hw
        · simp [he]
        · have : ¬(2 < wordCount t) := by
            have := of_decide_eq_true hw
            omega
          simp [this]

theorem spm_reject (now : Int) (p : WhatsAppWebhookPayload) (db : DB)
    (h : p.timestamp < now - FRESHNESS_WINDOW ∨ noTextOrShort p = true) :
    should_process_message now p db = (false, false) := by
  rw [spm_characterize, filtersPass_false_of_reject now p h]
  rfl

theorem spm_dup_reject (now : Int) (p : WhatsAppWebhookPayload) (db : DB)
    (pm : PayloadMessage) (hm : p.message = some pm)
    (hdup : (db.getMessage pm.id).isSome = true) :
    (should_process_message now p db).1 = false := by
  rw [spm_characterize]
  have hd : dupFound p db = true := by
    unfold dupFound
    rw [hm]
    exact hdup
  split
  · simp [hd]
  · rfl

/-! ## Helper lemmas about the handler -/

theorem scope_drop_not_configured (limit : Option String)
    (p : WhatsAppWebhookPayload) (h : strTruthy limit = false) :
    scope_drop limit p = .ok false := by
  unfold scope_drop
  rw [h]
  rfl

theorem scope_drop_direct (limit : Option String) (p : WhatsAppWebhookPayload)
    (h : extract_group_jid p = .ok none) :
    scope_drop limit p = .ok false := by
  unfold scope_drop
  split
  · rw [h]
    rfl
  · rfl

theorem scope_drop_mismatch (l : String) (p : WhatsAppWebhookPayload) (g : String)
    (hl : l ≠ "") (hext : extract_group_jid p = .ok (some g))
    (hgne : g ≠ "") (hne : g ≠ l) :
    scope_drop (some l) p = .ok true := by
  unfold scope_drop
  have ht : strTruthy (some l) = true := by simp [strTruthy, hl]
  rw [ht, hext]
  simp [strTruthy, hgne, hne]

theorem call_of_scope_true (settings : Settings) (env : ClassifierEnv)
    (sok mf : Bool) (p : WhatsAppWebhookPayload) (db : DB)
    (h : scope_drop settings.limit_to_group_id p = .ok true) :
    MessageHandler.call settings env sok mf p db =
      .ok ⟨db, true, none, false, false, false⟩ := by
  unfold MessageHandler.call
  rw [h]

theorem call_ok_cases (settings : Settings) (env : ClassifierEnv)
    (sok mf : Bool) (p : WhatsAppWebhookPayload) (db : DB) (r : HandlerResult)
    (h : MessageHandler.call settings env sok mf p db = .ok r) :
    (scope_drop settings.limit_to_group_id p = .ok true ∧
      r = ⟨db, true, none, false, false, false⟩) ∨
    (scope_drop settings.limit_to_group_id p = .ok false ∧
      ∃ db1 m, store_message mf p db = (db1, .ok m) ∧
        Message.from_webhook p = .ok m ∧
        r = classify_stage env sok m db1) := by
  unfold MessageHandler.call at h
  split at h
  · exact Except.noConfusion h
  next hsd =>
    injection h with h
    exact Or.inl ⟨hsd, h.symm⟩
  next hsd =>
    split at h
    · exact Except.noConfusion h
    next db1 m hst =>
      injection h with h
      refine Or.inr ⟨hsd, db1, m, hst, ?_, h.symm⟩
      unfold store_message at hst
      split at hst
      · injection hst with h1 h2
        exact Except.noConfusion h2
      next m0 hfw =>
        split at hst
        · injection hst with h1 h2
          exact Except.noConfusion h2
        · injection hst with h1 h2
          injection h2 with h2
          rw [h2] at hfw
          exact hfw

theorem classify_stage_char (env : ClassifierEnv) (sok : Bool) (m : Message)
    (db1 : DB) :
    (classify_stage env sok m db1 = ⟨db1, false, some m, false, false, false⟩ ∧
      (strTruthy m.text = false ∨ m.group_jid = none ∨ m.group_jid = some "")) ∨
    (∃ g t, m.group_jid = some g ∧ g ≠ "" ∧ m.text = some t ∧ t ≠ "" ∧
      classify_stage env sok m db1 =
        ⟨db1.upsertMessage (classified_update env t m), false,
         some (classified_update env t m), true,
         (should_notify env t).1, (should_notify env t).1 && sok⟩) := by
  unfold classify_stage
  by_cases htr : strTruthy m.text = true
  · rw [if_pos htr]
    cases hg : m.group_jid with
    | none => exact Or.inl ⟨rfl, Or.inr (Or.inl rfl)⟩
    | some g =>
      dsimp only
      by_cases hge : g = ""
      · rw [if_pos (by simp [hge])]
        exact Or.inl ⟨rfl, Or.inr (Or.inr (by rw [hge]))⟩
      · rw [if_neg (by simp [hge])]
        cases htext : m.text with
        | none => rw [htext] at htr; simp [strTruthy] at htr
        | some t =>
          have htne : t ≠ "" := by
            rw [htext] at htr
            simp [strTruthy] at htr
            exact htr
          refine Or.inr ⟨g, t, rfl, hge, rfl, htne, ?_⟩
          simp only [Option.getD_some]
          by_cases hdec : (should_notify env t).1 = true
          · rw [if_pos hdec, hdec]
            simp [hdec]
          · rw [if_neg hdec]
            have hfalse : (should_notify env t).1 = false := by
              cases hx : (should_notify env t).1
              · rfl
              · exact absurd hx hdec
            rw [hfalse]
            simp
  · rw [if_neg htr]
    exact Or.inl ⟨rfl, Or.inl (Bool.eq_false_iff.mpr htr)⟩

theorem classify_stage_scope (env : ClassifierEnv) (sok : Bool) (m : Message)
    (db1 : DB) : (classify_stage env sok m db1).scope_dropped = false := by
  rcases classify_stage_char env sok m db1 with ⟨h, _⟩ | ⟨g, t, _, _, _, _, h⟩ <;> rw [h]

theorem classify_stage_slack (env : ClassifierEnv) (m : Message) (db1 : DB) :
    classify_stage env false m db1 =
      { classify_stage env true m db1 with notify_succeeded := false } := by
  unfold classify_stage
  repeat split
  all_goals try rfl
  all_goals (by_cases hx : (should_notify env (m.text.getD "")).1 = true <;> simp [hx])

theorem store_message_ok_mem (mf : Bool) (p : WhatsAppWebhookPayload)
    (db db1 : DB) (m : Message)
    (h : store_message mf p db = (db1, .ok m)) : m ∈ db1.messages := by
  unfold store_message at h
  split at h
  · injection h with h1 h2
    exact Except.noConfusion h2
  next m0 hfw =>
    split at h
    · injection h with h1 h2
      exact Except.noConfusion h2
    · injection h with h1 h2
      injection h2 with h2
      subst h2
      rw [← h1]
      exact self_mem_upsertMessage _ _

theorem should_notify_unavailable_fst (t : String) :
    (should_notify .unavailable t).1 = false := by
  unfold should_notify
  split <;> rfl

theorem should_notify_raises_fst (e t : String) :
    (should_notify (.raises e) t).1 = false := by
  unfold should_notify
  split <;> rfl

theorem should_notify_nonempty (env : ClassifierEnv) (t : String)
    (h : strTrim t ≠ "") :
    should_notify env t =
      (match env with
       | .unavailable => (false, "API key not available", none, none, none)
       | .succeeds d r tt ti od => (d, r, tt, ti, od)
       | .raises e => (false, "Analysis failed: " ++ e, none, none, none)) := by
  unfold should_notify
  rw [if_neg]
  intro hc
  rcases Bool.or_eq_true_iff.mp hc with h1 | h2
  · have ht : t = "" := by simpa using h1
    exact h (by rw [ht]; rfl)
  · exact h (by simpa using h2)

/-! ## Helper lemmas about the webhook endpoint -/

theorem webhook_not_truthy (settings : Settings) (env : ClassifierEnv)
    (sok mf : Bool) (now : Int) (p : WhatsAppWebhookPayload) (db : DB)
    (h : strTruthy p.from_ = false) :
    webhook settings env sok mf now p db =
      .ok ⟨"ok", db, false, false, false, false, none, false, false, false⟩ := by
  unfold webhook
  rw [h]
  rfl

theorem webhook_reject (settings : Settings) (env : ClassifierEnv)
    (sok mf : Bool) (now : Int) (p : WhatsAppWebhookPayload) (db : DB)
    (ht : strTruthy p.from_ = true)
    (h : (should_process_message now p db).1 = false) :
    webhook settings env sok mf now p db =
      .ok ⟨"ok", db, true, (should_process_message now p db).2,
        false, false, none, false, false, false⟩ := by
  simp [webhook, ht, h]

theorem webhook_proceed (settings : Settings) (env : ClassifierEnv)
    (sok mf : Bool) (now : Int) (p : WhatsAppWebhookPayload) (db : DB)
    (hres : HandlerResult)
    (ht : strTruthy p.from_ = true)
    (hsp : (should_process_message now p db).1 = true)
    (hcall : MessageHandler.call settings env sok mf p db = .ok hres) :
    webhook settings env sok mf now p db =
      .ok ⟨"ok", hres.db, true, (should_process_message now p db).2, true,
        hres.scope_dropped, hres.stored, hres.classifier_called,
        hres.notify_attempted, hres.notify_succeeded⟩ := by
  simp [webhook, ht, hsp, hcall]

theorem webhook_ok_cases (settings : Settings) (env : ClassifierEnv)
    (sok mf : Bool) (now : Int) (p : WhatsAppWebhookPayload) (db : DB)
    (r : WebhookResult)
    (h : webhook settings env sok mf now p db = .ok r) :
    (strTruthy p.from_ = false ∧
      r = ⟨"ok", db, false, false, false, false, none, false, false, false⟩) ∨
    (strTruthy p.from_ = true ∧ (should_process_message now p db).1 = false ∧
      r = ⟨"ok", db, true, (should_process_message now p db).2,
        false, false, none, false, false, false⟩) ∨
    (strTruthy p.from_ = true ∧ (should_process_message now p db).1 = true ∧
      ∃ hres, MessageHandler.call settings env sok mf p db = .ok hres ∧
        r = ⟨"ok", hres.db, true, (should_process_message now p db).2, true,
          hres.scope_dropped, hres.stored, hres.classifier_called,
          hres.notify_attempted, hres.notify_succeeded⟩) := by
  by_cases ht : strTruthy p.from_ = true
  · by_cases hsp : (should_process_message now p db).1 = true
    · cases hcall : MessageHandler.call settings env sok mf p db with
      | error e =>
        exfalso
        have herr : webhook settings env sok mf now p db = .error e := by
          simp [webhook, ht, hsp, hcall]
        rw [herr] at h
        exact Except.noConfusion h
      | ok hres =>
        rw [webhook_proceed settings env sok mf now p db hres ht hsp hcall] at h
        injection h with h
        exact Or.inr (Or.inr ⟨ht, hsp, ⟨hres, rfl, h.symm⟩⟩)
    · have hf : (should_process_message now p db).1 = false := by
        cases hx : (should_process_message now p db).1
        · rfl
        · exact absurd hx hsp
      rw [webhook_reject settings env sok mf now p db ht hf] at h
      injection h with h
      exact Or.inr (Or.inl ⟨ht, hf, h.symm⟩)
  · have hf : strTruthy p.from_ = false := by
      cases hx : strTruthy p.from_
      · rfl
      · exact absurd hx ht
    rw [webhook_not_truthy settings env sok mf now p db hf] at h
    injection h with h
    exact Or.inl ⟨hf, h.symm⟩


/-! ## Claims -/

/-- C1: for every stored message processing run the Sender row (and,
when the message carries a group_jid, the Group row) is created inside
the same atomic unit as the Message insert and before it, so the store
preserves referential integrity; a failure at the Message insert rolls
the Sender/Group creations back, leaving the store exactly as before;
and a successfully stored Message is visible with its sender_jid and
present group_jid resolving to existing rows. -/
theorem c1_store_atomic_referential_integrity (mf : Bool)
    (p : WhatsAppWebhookPayload) (db : DB) (hinv : db.refIntegrity) :
    (store_message mf p db).1.refIntegrity ∧
    store_message true p db = (db, .error ()) ∧
    ∀ m, (store_message mf p db).2 = .ok m →
      m ∈ (store_message mf p db).1.messages ∧
      ((store_message mf p db).1.getSender m.sender_jid).isSome = true ∧
      ∀ g, m.group_jid = some g →
        ((store_message mf p db).1.getGroup g).isSome = true := by
  have hrb : store_message true p db = (db, Except.error ()) := by
    unfold store_message
    cases hfw : Message.from_webhook p with
    | error e => cases e; rfl
    | ok m => rfl
  have hpres : (store_message mf p db).1.refIntegrity := by
    cases hfw : Message.from_webhook p with
    | error e =>
      have h1 : (store_message mf p db).1 = db := by
        unfold store_message; rw [hfw]
      rw [h1]; exact hinv
    | ok m =>
      cases mf with
      | true =>
        have h1 : (store_message true p db).1 = db := by rw [hrb]
        rw [h1]; exact hinv
      | false =>
        have h1 : (store_message false p db).1 =
            ((ensure_group p m (ensure_sender p m db)).upsertMessage m) := by
          unfold store_message; rw [hfw]; rfl
        rw [h1]
        intro x hx
        have hshape := from_webhook_shape p m hfw
        rcases mem_upsertMessage _ m x hx with rfl | hxm
        · constructor
          · rw [getSender_eq_of_senders_eq _ _ _
                (upsertMessage_senders (ensure_group p x (ensure_sender p x db)) x),
              getSender_eq_of_senders_eq _ _ _
                (ensure_group_senders p x (ensure_sender p x db))]
            exact ensure_sender_self p x db
          · intro g hg
            rw [getGroup_eq_of_groups_eq _ _ _
                (upsertMessage_groups (ensure_group p x (ensure_sender p x db)) x)]
            exact ensure_group_self p x _ g hg (hshape.2.2.2.2.2 g hg)
        · have hxdb : x ∈ db.messages := by
            rw [ensure_group_messages p m (ensure_sender p m db),
              ensure_sender_messages p m db] at hxm
            exact hxm
          obtain ⟨hs, hgr⟩ := hinv x hxdb
          constructor
          · rw [getSender_eq_of_senders_eq _ _ _
                (upsertMessage_senders (ensure_group p m (ensure_sender p m db)) m),
              getSender_eq_of_senders_eq _ _ _
                (ensure_group_senders p m (ensure_sender p m db))]
            exact ensure_sender_mono p m db _ hs
          · intro g hg
            rw [getGroup_eq_of_groups_eq _ _ _
                (upsertMessage_groups (ensure_group p m (ensure_sender p m db)) m)]
            refine ensure_group_mono p m _ g ?_
            rw [getGroup_eq_of_groups_eq _ _ _ (ensure_sender_groups p m db)]
            exact hgr g hg
  refine ⟨hpres, hrb, fun m hm => ?_⟩
  have hmem : m ∈ (store_message mf p db).1.messages := by
    cases hfw : Message.from_webhook p with
    | error e =>
      have h2 : (store_message mf p db).2 = .error e := by
        unfold store_message; rw [hfw]
      rw [h2] at hm
      exact Except.noConfusion hm
    | ok m0 =>
      cases mf with
      | true =>
        rw [hrb] at hm
        exact Except.noConfusion hm
      | false =>
        have h2 : (store_message false p db).2 = .ok m0 := by
          unfold store_message; rw [hfw]; rfl
        rw [h2] at hm
        injection hm with hm
        subst hm
        have h1 : (store_message false p db).1 =
            ((ensure_group p m0 (ensure_sender p m0 db)).upsertMessage m0) := by
          unfold store_message; rw [hfw]; rfl
        rw [h1]
        exact self_mem_upsertMessage _ m0
  exact ⟨hmem, (hpres m hmem).1, (hpres m hmem).2⟩

/-- Witness for C1: the scenario A payload against the empty store. -/
theorem c1_store_atomic_referential_integrity_witness :
    emptyDB.refIntegrity ∧
    (store_message false payloadA emptyDB).1.refIntegrity ∧
    store_message true payloadA emptyDB = (emptyDB, .error ()) :=
  have h : emptyDB.refIntegrity := by
    intro m hm
    simp [emptyDB] at hm
  ⟨h, (c1_store_atomic_referential_integrity false payloadA emptyDB h).1,
    (c1_store_atomic_referential_integrity false payloadA emptyDB h).2.1⟩

/-- C9: when two deliveries race to create the same new Sender or the
same new Group, the unit whose create hits the uniqueness conflict
resolves it by re-fetch instead of failing, and afterwards exactly one
row with that key exists while the Message row is visible: part one
states this for a raced Sender creation, part two for a raced Group
creation. -/
theorem c9_sender_group_creation_race_idempotent :
    (∀ (p : WhatsAppWebhookPayload) (db : DB) (s0 : Sender) (m : Message),
      Message.from_webhook p = .ok m →
      s0.jid = m.sender_jid →
      db.getSender m.sender_jid = none →
      (store_message_sender_race s0 p db).2 = .ok m ∧
      ((store_message_sender_race s0 p db).1.senders.countP
        (fun x => x.jid == m.sender_jid)) = 1 ∧
      ((store_message_sender_race s0 p db).1.getMessage m.message_id).isSome = true) ∧
    (∀ (p : WhatsAppWebhookPayload) (db : DB) (g0 : Group) (m : Message)
       (g : String),
      Message.from_webhook p = .ok m →
      m.group_jid = some g →
      g0.group_jid = g →
      db.getGroup g = none →
      (store_message_group_race g0 p db).2 = .ok m ∧
      ((store_message_group_race g0 p db).1.groups.countP
        (fun x => x.group_jid == g)) = 1 ∧
      ((store_message_group_race g0 p db).1.getMessage m.message_id).isSome = true) := by
  constructor
  · intro p db s0 m hfw hs0 hnew
    have hfound : ((({ db with senders := s0 :: db.senders } : DB).getSender
        m.sender_jid).isSome) = true := by
      unfold DB.getSender
      simp [List.find?_cons, hs0]
    have hups : ({ db with senders := s0 :: db.senders } : DB).upsertSender
          ⟨m.sender_jid, p.pushname⟩ =
        { db with senders := s0 :: db.senders } := by
      unfold DB.upsertSender
      rw [if_pos hfound]
    have hrace : store_message_sender_race s0 p db =
        ((ensure_group p m
            (({ db with senders := s0 :: db.senders } : DB).upsertSender
              ⟨m.sender_jid, p.pushname⟩)).upsertMessage m, .ok m) := by
      unfold store_message_sender_race
      rw [hfw]
      dsimp only
      rw [hnew]
    rw [hrace, hups]
    refine ⟨rfl, ?_, getMessage_upsertMessage_self _ m⟩
    rw [upsertMessage_senders, ensure_group_senders]
    have hcount0 : db.senders.countP (fun x => x.jid == m.sender_jid) = 0 :=
      getSender_none_countP db m.sender_jid hnew
    simp [List.countP_cons, hcount0, hs0]
  · intro p db g0 m g hfw hg hg0 hnew
    have hshape := from_webhook_shape p m hfw
    have hne : g ≠ "" := hshape.2.2.2.2.2 g hg
    have hdb1g : (ensure_sender p m db).getGroup g = none := by
      rw [getGroup_eq_of_groups_eq _ _ _ (ensure_sender_groups p m db)]
      exact hnew
    have hfound : ((({ ensure_sender p m db with
          groups := g0 :: (ensure_sender p m db).groups } : DB).getGroup g).isSome) = true := by
      unfold DB.getGroup
      simp [List.find?_cons, hg0]
    have hups : ({ ensure_sender p m db with
          groups := g0 :: (ensure_sender p m db).groups } : DB).upsertGroup
          ⟨g, extract_group_name p⟩ =
        { ensure_sender p m db with
          groups := g0 :: (ensure_sender p m db).groups } := by
      unfold DB.upsertGroup
      rw [if_pos hfound]
    have hrace : store_message_group_race g0 p db =
        ((({ ensure_sender p m db with
            groups := g0 :: (ensure_sender p m db).groups } : DB).upsertGroup
           ⟨g, extract_group_name p⟩).upsertMessage m, .ok m) := by
      unfold store_message_group_race
      rw [hfw]
      dsimp only
      rw [hg]
      dsimp only
      rw [if_neg (by simp [hne]), hdb1g]
    rw [hrace, hups]
    refine ⟨rfl, ?_, getMessage_upsertMessage_self _ m⟩
    have hcount0 : (ensure_sender p m db).groups.countP
        (fun x => x.group_jid == g) = 0 :=
      getGroup_none_countP _ g hdb1g
    simp only [DB.upsertMessage]
    simp [List.countP_cons, hcount0, hg0]

/-- Witness for C9: the scenario A delivery racing against a
concurrent creation of the same new sender 111@s.whatsapp.net, and
against a concurrent creation of the same new group 222@g.us. -/
theorem c9_sender_group_creation_race_idempotent_witness :
    Message.from_webhook payloadA = .ok msgA ∧
    racingSender111.jid = msgA.sender_jid ∧
    emptyDB.getSender msgA.sender_jid = none ∧
    (store_message_sender_race racingSender111 payloadA emptyDB).2 = .ok msgA ∧
    ((store_message_sender_race racingSender111 payloadA emptyDB).1.senders.countP
      (fun x => x.jid == msgA.sender_jid)) = 1 ∧
    msgA.group_jid = some "222@g.us" ∧
    racingGroup222.group_jid = "222@g.us" ∧
    emptyDB.getGroup "222@g.us" = none ∧
    (store_message_group_race racingGroup222 payloadA emptyDB).2 = .ok msgA ∧
    ((store_message_group_race racingGroup222 payloadA emptyDB).1.groups.countP
      (fun x => x.group_jid == "222@g.us")) = 1 :=
  ⟨by decide, rfl, rfl,
   (c9_sender_group_creation_race_idempotent.1 payloadA emptyDB racingSender111
     msgA (by decide) rfl rfl).1,
   (c9_sender_group_creation_race_idempotent.1 payloadA emptyDB racingSender111
     msgA (by decide) rfl rfl).2.1,
   rfl, rfl, rfl,
   (c9_sender_group_creation_race_idempotent.2 payloadA emptyDB racingGroup222
     msgA "222@g.us" (by decide) rfl rfl rfl).1,
   (c9_sender_group_creation_race_idempotent.2 payloadA emptyDB racingGroup222
     msgA "222@g.us" (by decide) rfl rfl rfl).2.1⟩

/-- C10: a payload with a missing or empty from field is acknowledged
with ok and triggers no processing at all: no filter evaluation, no
duplicate lookup, no handler run, no storage write, no classification
and no notification. -/
theorem c10_missing_sender_short_circuit (settings : Settings)
    (env : ClassifierEnv) (sok mf : Bool) (now : Int)
    (p : WhatsAppWebhookPayload) (db : DB)
    (h : p.from_ = none ∨ p.from_ = some "") :
    webhook settings env sok mf now p db =
      .ok ⟨"ok", db, false, false, false, false, none, false, false, false⟩ := by
  apply webhook_not_truthy
  rcases h with h | h <;> simp [strTruthy, h]

/-- Witness for C10: the concrete payload with no from field. -/
theorem c10_missing_sender_short_circuit_witness :
    (payloadNoFrom.from_ = none ∨ payloadNoFrom.from_ = some "") ∧
    webhook settingsNone .unavailable true false 0 payloadNoFrom emptyDB =
      .ok ⟨"ok", emptyDB, false, false, false, false, none, false, false, false⟩ :=
  ⟨Or.inl rfl,
   c10_missing_sender_short_circuit settingsNone .unavailable true false 0
     payloadNoFrom emptyDB (Or.inl rfl)⟩


/-- C2: redelivering a payload whose message id is already a stored
Message primary key is idempotent: the handler (entity upsert,
classifier, dispatcher) is not invoked, no row is written, the
response still acknowledges success; and the duplicate lookup is only
ever performed after the staleness, content-type and minimum-length
filters have passed. -/
theorem c2_duplicate_redelivery_idempotent (settings : Settings)
    (env : ClassifierEnv) (sok mf : Bool) (now : Int)
    (p : WhatsAppWebhookPayload) (db : DB) (pm : PayloadMessage)
    (hm : p.message = some pm)
    (hdup : (db.getMessage pm.id).isSome = true) :
    (∃ r, webhook settings env sok mf now p db = .ok r ∧
      r.response = "ok" ∧ r.db = db ∧ r.handler_invoked = false ∧
      r.stored = none ∧ r.classifier_called = false ∧
      r.notify_attempted = false) ∧
    ∀ now2 q db2, (should_process_message now2 q db2).2 = true →
      filtersPass now2 q = true := by
  constructor
  · by_cases ht : strTruthy p.from_ = true
    · have hrej := spm_dup_reject now p db pm hm hdup
      exact ⟨_, webhook_reject settings env sok mf now p db ht hrej,
        rfl, rfl, rfl, rfl, rfl, rfl⟩
    · have hf : strTruthy p.from_ = false := by
        cases hx : strTruthy p.from_
        · rfl
        · exact absurd hx ht
      exact ⟨_, webhook_not_truthy settings env sok mf now p db hf,
        rfl, rfl, rfl, rfl, rfl, rfl⟩
  · exact fun now2 q db2 h => spm_lookup_filters now2 q db2 h

/-- Witness for C2: the scenario A payload redelivered against a store
already holding the row M1. -/
theorem c2_duplicate_redelivery_idempotent_witness :
    payloadA.message =
      some ⟨"M1", some "Looking for a React developer now", none⟩ ∧
    (dbWithM1.getMessage "M1").isSome = true ∧
    ∃ r, webhook settingsNone .unavailable true false 0 payloadA dbWithM1 = .ok r ∧
      r.response = "ok" ∧ r.db = dbWithM1 ∧ r.handler_invoked = false ∧
      r.stored = none ∧ r.classifier_called = false ∧
      r.notify_attempted = false :=
  ⟨rfl, by decide,
   (c2_duplicate_redelivery_idempotent settingsNone .unavailable true false 0
     payloadA dbWithM1 ⟨"M1", some "Looking for a React developer now", none⟩
     rfl (by decide)).1⟩

/-- C5: a payload that is stale (older than the 4-day window) or whose
text is missing or at most two words is rejected by the filter chain
before any storage access: the duplicate lookup does not run, nothing
is stored, the handler is never invoked, and the webhook still
acknowledges success. -/
theorem c5_cheap_filters_reject_before_storage (settings : Settings)
    (env : ClassifierEnv) (sok mf : Bool) (now : Int)
    (p : WhatsAppWebhookPayload) (db : DB)
    (h : p.timestamp < now - FRESHNESS_WINDOW ∨ noTextOrShort p = true) :
    should_process_message now p db = (false, false) ∧
    ∃ r, webhook settings env sok mf now p db = .ok r ∧
      r.response = "ok" ∧ r.db = db ∧ r.dup_lookup_performed = false ∧
      r.handler_invoked = false ∧ r.stored = none ∧
      r.classifier_called = false ∧ r.notify_attempted = false := by
  have hsp := spm_reject now p db h
  refine ⟨hsp, ?_⟩
  by_cases ht : strTruthy p.from_ = true
  · have hr := webhook_reject settings env sok mf now p db ht (by rw [hsp])
    rw [hsp] at hr
    exact ⟨_, hr, rfl, rfl, rfl, rfl, rfl, rfl, rfl⟩
  · have hf : strTruthy p.from_ = false := by
      cases hx : strTruthy p.from_
      · rfl
      · exact absurd hx ht
    exact ⟨_, webhook_not_truthy settings env sok mf now p db hf,
      rfl, rfl, rfl, rfl, rfl, rfl, rfl⟩

/-- Witness for C5: the two-word scenario C payload. -/
theorem c5_cheap_filters_reject_before_storage_witness :
    noTextOrShort payloadC = true ∧
    should_process_message 0 payloadC emptyDB = (false, false) ∧
    ∃ r, webhook settingsNone .unavailable true false 0 payloadC emptyDB = .ok r ∧
      r.response = "ok" ∧ r.db = emptyDB ∧ r.dup_lookup_performed = false ∧
      r.handler_invoked = false ∧ r.stored = none ∧
      r.classifier_called = false ∧ r.notify_attempted = false :=
  ⟨by decide,
   (c5_cheap_filters_reject_before_storage settingsNone .unavailable true false 0
     payloadC emptyDB (Or.inr (by decide))).1,
   (c5_cheap_filters_reject_before_storage settingsNone .unavailable true false 0
     payloadC emptyDB (Or.inr (by decide))).2⟩


/-- C4: the scope-limiter contract.  With a configured restriction, a
group message whose canonical group jid differs from the configured
one is dropped with nothing persisted and nothing forwarded; with no
restriction configured the gate never drops; and a direct (non-group)
message is never dropped by this gate regardless of configuration. -/
theorem c4_group_restriction_gate :
    (∀ (settings : Settings) (env : ClassifierEnv) (sok mf : Bool)
       (p : WhatsAppWebhookPayload) (db : DB) (l g : String),
      settings.limit_to_group_id = some l → l ≠ "" →
      extract_group_jid p = .ok (some g) → g ≠ "" → g ≠ l →
      MessageHandler.call settings env sok mf p db =
        .ok ⟨db, true, none, false, false, false⟩) ∧
    (∀ (settings : Settings) (env : ClassifierEnv) (sok mf : Bool)
       (p : WhatsAppWebhookPayload) (db : DB) (r : HandlerResult),
      strTruthy settings.limit_to_group_id = false →
      MessageHandler.call settings env sok mf p db = .ok r →
      r.scope_dropped = false) ∧
    (∀ (settings : Settings) (env : ClassifierEnv) (sok mf : Bool)
       (p : WhatsAppWebhookPayload) (db : DB) (r : HandlerResult),
      extract_group_jid p = .ok none →
      MessageHandler.call settings env sok mf p db = .ok r →
      r.scope_dropped = false) := by
  refine ⟨?_, ?_, ?_⟩
  · intro settings env sok mf p db l g hl hl2 hext hg hne
    apply call_of_scope_true
    rw [hl]
    exact scope_drop_mismatch l p g hl2 hext hg hne
  · intro settings env sok mf p db r hnc hc
    rcases call_ok_cases settings env sok mf p db r hc with ⟨hsd, hr⟩ | ⟨hsd, db1, m, hst, hfw, hr⟩
    · rw [scope_drop_not_configured _ p hnc] at hsd
      injection hsd with hsd
      exact absurd hsd.symm (by simp)
    · rw [hr]
      exact classify_stage_scope env sok m db1
  · intro settings env sok mf p db r hext hc
    rcases call_ok_cases settings env sok mf p db r hc with ⟨hsd, hr⟩ | ⟨hsd, db1, m, hst, hfw, hr⟩
    · rw [scope_drop_direct _ p hext] at hsd
      injection hsd with hsd
      exact absurd hsd.symm (by simp)
    · rw [hr]
      exact classify_stage_scope env sok m db1

/-- Witness for C4: scenario D dropped under the 222 restriction,
scenario A passing with no restriction, and the direct payload passing
under the restriction. -/
theorem c4_group_restriction_gate_witness :
    (settings222.limit_to_group_id = some "222@g.us" ∧
      extract_group_jid payloadD = .ok (some "333@g.us") ∧
      MessageHandler.call settings222 .unavailable true false payloadD emptyDB =
        .ok ⟨emptyDB, true, none, false, false, false⟩) ∧
    (MessageHandler.call settingsNone .unavailable true false payloadA emptyDB =
        .ok resultA_unavail ∧ resultA_unavail.scope_dropped = false) ∧
    (extract_group_jid payloadDirect = .ok none ∧
      MessageHandler.call settings222 .unavailable true false payloadDirect emptyDB =
        .ok resultDirect ∧ resultDirect.scope_dropped = false) :=
  ⟨⟨rfl, by decide,
    c4_group_restriction_gate.1 settings222 .unavailable true false payloadD
      emptyDB "222@g.us" "333@g.us" rfl (by decide) (by decide) (by decide)
      (by decide)⟩,
   ⟨by decide,
    c4_group_restriction_gate.2.1 settingsNone .unavailable true false payloadA
      emptyDB resultA_unavail (by decide) (by decide)⟩,
   ⟨by decide, by decide,
    c4_group_restriction_gate.2.2 settings222 .unavailable true false
      payloadDirect emptyDB resultDirect (by decide) (by decide)⟩⟩

/-- C3 counterexample: with the scope limiter configured to 222@g.us,
the scenario D payload from group 333@g.us is scope-dropped, yet the
webhook run shows the filter chain was evaluated and the duplicate
lookup was performed before the gate fired — the gate is not applied
first. -/
theorem c3_scope_limiter_counterexample :
    (webhook settings222 .unavailable true false 0 payloadD emptyDB).toOption.map
        (fun r => (r.scope_dropped, r.filters_evaluated, r.dup_lookup_performed,
                   r.db.messages.length)) =
      some (true, true, true, 0) := by decide

/-- C3 amended: the scope-limiter gate is applied inside the handler,
after the ingest filter chain and after the duplicate-guard lookup,
but still before any storage write: an out-of-scope group message is
dropped with nothing stored, nothing classified, nothing notified, and
the webhook acknowledges success; whenever the handler (and so the
gate) runs at all, the filter chain has passed and the duplicate
lookup has already been performed. -/
theorem c3_scope_limiter_after_filter_chain (settings : Settings)
    (env : ClassifierEnv) (sok mf : Bool) (now : Int)
    (p : WhatsAppWebhookPayload) (db : DB) (l g : String)
    (hl : settings.limit_to_group_id = some l) (hl2 : l ≠ "")
    (hext : extract_group_jid p = .ok (some g)) (hg : g ≠ "") (hne : g ≠ l) :
    ∃ r, webhook settings env sok mf now p db = .ok r ∧
      r.response = "ok" ∧ r.db = db ∧ r.stored = none ∧
      r.classifier_called = false ∧ r.notify_attempted = false ∧
      (r.handler_invoked = true →
        r.scope_dropped = true ∧ r.dup_lookup_performed = true ∧
        filtersPass now p = true) := by
  have hcall : MessageHandler.call settings env sok mf p db =
      .ok ⟨db, true, none, false, false, false⟩ := by
    apply call_of_scope_true
    rw [hl]
    exact scope_drop_mismatch l p g hl2 hext hg hne
  by_cases ht : strTruthy p.from_ = true
  · by_cases hsp : (should_process_message now p db).1 = true
    · have hpair := spm_proceed_pair now p db hsp
      have hw := webhook_proceed settings env sok mf now p db _ ht hsp hcall
      refine ⟨_, hw, rfl, rfl, rfl, rfl, rfl, fun _ => ⟨rfl, ?_, ?_⟩⟩
      · rw [hpair]
      · exact spm_lookup_filters now p db (by rw [hpair])
    · have hf : (should_process_message now p db).1 = false := by
        cases hx : (should_process_message now p db).1
        · rfl
        · exact absurd hx hsp
      have hw := webhook_reject settings env sok mf now p db ht hf
      exact ⟨_, hw, rfl, rfl, rfl, rfl, rfl, fun habs => absurd habs (by simp)⟩
  · have hf : strTruthy p.from_ = false := by
      cases hx : strTruthy p.from_
      · rfl
      · exact absurd hx ht
    exact ⟨_, webhook_not_truthy settings env sok mf now p db hf,
      rfl, rfl, rfl, rfl, rfl, fun habs => absurd habs (by simp)⟩

/-- Witness for the amended C3: the scenario D payload under the 222
restriction. -/
theorem c3_scope_limiter_after_filter_chain_witness :
    settings222.limit_to_group_id = some "222@g.us" ∧
    extract_group_jid payloadD = .ok (some "333@g.us") ∧
    ∃ r, webhook settings222 .unavailable true false 0 payloadD emptyDB = .ok r ∧
      r.response = "ok" ∧ r.db = emptyDB ∧ r.stored = none ∧
      r.classifier_called = false ∧ r.notify_attempted = false ∧
      (r.handler_invoked = true →
        r.scope_dropped = true ∧ r.dup_lookup_performed = true ∧
        filtersPass 0 payloadD = true) :=
  ⟨rfl, by decide,
   c3_scope_limiter_after_filter_chain settings222 .unavailable true false 0
     payloadD emptyDB "222@g.us" "333@g.us" rfl (by decide) (by decide)
     (by decide) (by decide)⟩


theorem classified_update_fields (env : ClassifierEnv) (t : String) (m : Message) :
    (classified_update env t m).is_relevant = some (should_notify env t).1 ∧
    (classified_update env t m).reasoning = some (should_notify env t).2.1 ∧
    (classified_update env t m).relevancy_total_token_count =
      (should_notify env t).2.2.1 ∧
    (classified_update env t m).relevancy_input_tokens =
      (should_notify env t).2.2.2.1 ∧
    (classified_update env t m).relevancy_output_tokens =
      (should_notify env t).2.2.2.2 ∧
    (classified_update env t m).text = m.text ∧
    (classified_update env t m).group_jid = m.group_jid :=
  ⟨rfl, rfl, rfl, rfl, rfl, rfl, rfl⟩

/-- C6 counterexample: with the classifier unavailable, the stored
scenario A group message does not keep null classification fields —
the relevance flag is set to false and the reasoning to the diagnostic
string, so the claim as stated fails on the code. -/
theorem c6_classifier_unavailable_counterexample :
    (webhook settingsNone .unavailable true false 0 payloadA emptyDB).toOption.bind
        (fun r => r.stored.map fun m =>
          (m.is_relevant, m.reasoning, m.relevancy_total_token_count,
           m.relevancy_input_tokens, m.relevancy_output_tokens)) =
      some (some false, some "API key not available", none, none, none) := by
  decide

/-- C6 amended: when the classifier is unavailable, classification of
a stored group message is skipped in the sense that the relevance flag
is set to false and the reasoning to the diagnostic string
"API key not available", the token counts stay null, the message stays
stored, processing continues and the dispatcher is never invoked. -/
theorem c6_classifier_unavailable_no_notification (settings : Settings)
    (sok mf : Bool) (p : WhatsAppWebhookPayload) (db : DB) (r : HandlerResult)
    (hc : MessageHandler.call settings .unavailable sok mf p db = .ok r) :
    r.notify_attempted = false ∧
    ∀ m t, r.stored = some m → m.group_jid ≠ none → m.text = some t →
      strTrim t ≠ "" →
      m.is_relevant = some false ∧
      m.reasoning = some "API key not available" ∧
      m.relevancy_total_token_count = none ∧
      m.relevancy_input_tokens = none ∧
      m.relevancy_output_tokens = none ∧
      m ∈ r.db.messages := by
  rcases call_ok_cases settings .unavailable sok mf p db r hc with
    ⟨hsd, hr⟩ | ⟨hsd, db1, m0, hst, hfw, hr⟩
  · subst hr
    exact ⟨rfl, fun m t hm hgr htx htr => Option.noConfusion hm⟩
  · subst hr
    rcases classify_stage_char .unavailable sok m0 db1 with
      ⟨hcs, hreason⟩ | ⟨g, t0, hg0, hgne, htext0, htne0, hcs⟩
    · rw [hcs]
      refine ⟨rfl, fun m t hm hgr htx htr => ?_⟩
      injection hm with hm
      subst hm
      exfalso
      rcases hreason with h1 | h2 | h3
      · rw [htx] at h1
        simp [strTruthy] at h1
        exact htr (by rw [h1]; rfl)
      · exact hgr h2
      · exact (from_webhook_shape p m0 hfw).2.2.2.2.2 "" h3 rfl
    · rw [hcs]
      refine ⟨should_notify_unavailable_fst t0, fun m t hm hgr htx htr => ?_⟩
      injection hm with hm
      subst hm
      have htpres : m0.text = some t := by
        rw [← (classified_update_fields .unavailable t0 m0).2.2.2.2.2.1]
        exact htx
      have htt : t0 = t := by
        rw [htext0] at htpres
        injection htpres
      subst htt
      have hsn := should_notify_nonempty .unavailable t0 htr
      obtain ⟨f1, f2, f3, f4, f5, _, _⟩ :=
        classified_update_fields .unavailable t0 m0
      refine ⟨?_, ?_, ?_, ?_, ?_, self_mem_upsertMessage _ _⟩
      · rw [f1, hsn]
      · rw [f2, hsn]
      · rw [f3, hsn]
      · rw [f4, hsn]
      · rw [f5, hsn]

/-- Witness for the amended C6: scenario A with the classifier
unavailable. -/
theorem c6_classifier_unavailable_no_notification_witness :
    MessageHandler.call settingsNone .unavailable true false payloadA emptyDB =
      .ok resultA_unavail ∧
    resultA_unavail.notify_attempted = false ∧
    (msgA_unavail.is_relevant = some false ∧
      msgA_unavail.reasoning = some "API key not available" ∧
      msgA_unavail.relevancy_total_token_count = none ∧
      msgA_unavail.relevancy_input_tokens = none ∧
      msgA_unavail.relevancy_output_tokens = none ∧
      msgA_unavail ∈ resultA_unavail.db.messages) :=
  ⟨by decide,
   (c6_classifier_unavailable_no_notification settingsNone true false payloadA
     emptyDB resultA_unavail (by decide)).1,
   (c6_classifier_unavailable_no_notification settingsNone true false payloadA
     emptyDB resultA_unavail (by decide)).2 msgA_unavail
     "Looking for a React developer now" rfl (by decide) rfl (by decide)⟩

/-- C7: a runtime error raised during classification is caught inside
should_notify, which returns the diagnostic reasoning with a false
flag and null token counts; at the handler level the already stored
message remains stored, is never marked relevant, and no notification
is attempted. -/
theorem c7_classifier_error_contained (e t : String) (ht : strTrim t ≠ "") :
    should_notify (.raises e) t =
      (false, "Analysis failed: " ++ e, none, none, none) ∧
    ∀ (settings : Settings) (sok mf : Bool) (p : WhatsAppWebhookPayload)
      (db : DB) (r : HandlerResult),
      MessageHandler.call settings (.raises e) sok mf p db = .ok r →
      r.notify_attempted = false ∧
      ∀ m, r.stored = some m → m ∈ r.db.messages ∧ m.is_relevant ≠ some true := by
  constructor
  · rw [should_notify_nonempty _ t ht]
  · intro settings sok mf p db r hc
    rcases call_ok_cases settings (.raises e) sok mf p db r hc with
      ⟨hsd, hr⟩ | ⟨hsd, db1, m0, hst, hfw, hr⟩
    · subst hr
      exact ⟨rfl, fun m hm => Option.noConfusion hm⟩
    · subst hr
      rcases classify_stage_char (.raises e) sok m0 db1 with
        ⟨hcs, _⟩ | ⟨g, t0, hg0, hgne, htext0, htne0, hcs⟩
      · rw [hcs]
        refine ⟨rfl, fun m hm => ?_⟩
        injection hm with hm
        subst hm
        refine ⟨store_message_ok_mem mf p db db1 m0 hst, ?_⟩
        rw [(from_webhook_shape p m0 hfw).1]
        simp
      · rw [hcs]
        refine ⟨should_notify_raises_fst e t0, fun m hm => ?_⟩
        injection hm with hm
        subst hm
        refine ⟨self_mem_upsertMessage _ _, ?_⟩
        rw [(classified_update_fields (.raises e) t0 m0).1,
          should_notify_raises_fst e t0]
        simp

/-- Witness for C7: scenario A with the classifier raising boom. -/
theorem c7_classifier_error_contained_witness :
    strTrim "Looking for a React developer now" ≠ "" ∧
    should_notify (.raises "boom") "Looking for a React developer now" =
      (false, "Analysis failed: boom", none, none, none) ∧
    (resultA_boom.notify_attempted = false ∧
      ∀ m, resultA_boom.stored = some m →
        m ∈ resultA_boom.db.messages ∧ m.is_relevant ≠ some true) :=
  ⟨by decide,
   (c7_classifier_error_contained "boom" "Looking for a React developer now"
     (by decide)).1,
   (c7_classifier_error_contained "boom" "Looking for a React developer now"
     (by decide)).2 settingsNone true false payloadA emptyDB resultA_boom
     (by decide)⟩

/-- C8: the Slack dispatch is attempted only when classification
yielded a relevant group message (so never for a direct message), and
a failing outbound call is caught: the handler outcome with a failing
Slack endpoint differs from the succeeding one only in the success
flag — same final store, same stored message, no propagated error. -/
theorem c8_dispatch_guard_and_failure_isolation :
    (∀ (settings : Settings) (env : ClassifierEnv) (sok mf : Bool)
       (p : WhatsAppWebhookPayload) (db : DB) (r : HandlerResult),
      MessageHandler.call settings env sok mf p db = .ok r →
      r.notify_attempted = true →
      ∃ m g, r.stored = some m ∧ m.is_relevant = some true ∧
        m.group_jid = some g ∧ g ≠ "" ∧ m ∈ r.db.messages) ∧
    ∀ (settings : Settings) (env : ClassifierEnv) (mf : Bool)
      (p : WhatsAppWebhookPayload) (db : DB),
      MessageHandler.call settings env false mf p db =
        Except.map (fun r => { r with notify_succeeded := false })
          (MessageHandler.call settings env true mf p db) := by
  constructor
  · intro settings env sok mf p db r hc hn
    rcases call_ok_cases settings env sok mf p db r hc with
      ⟨hsd, hr⟩ | ⟨hsd, db1, m0, hst, hfw, hr⟩
    · subst hr
      exact absurd hn (by simp)
    · subst hr
      rcases classify_stage_char env sok m0 db1 with
        ⟨hcs, _⟩ | ⟨g, t0, hg0, hgne, htext0, htne0, hcs⟩
      · rw [hcs] at hn
        exact absurd hn (by simp)
      · rw [hcs] at hn ⊢
        have hdec : (should_notify env t0).1 = true := hn
        refine ⟨classified_update env t0 m0, g, rfl, ?_, ?_, hgne,
          self_mem_upsertMessage _ _⟩
        · rw [(classified_update_fields env t0 m0).1, hdec]
        · rw [(classified_update_fields env t0 m0).2.2.2.2.2.2, hg0]
  · intro settings env mf p db
    unfold MessageHandler.call
    split
    · rfl
    · rfl
    · split
      · rfl
      next db1 m hst =>
        show Except.ok (classify_stage env false m db1) = _
        rw [classify_stage_slack]
        rfl

/-- Witness for C8: scenario A with a relevant classification, and the
failure-isolation equality at the same inputs. -/
theorem c8_dispatch_guard_and_failure_isolation_witness :
    MessageHandler.call settingsNone
        (.succeeds true "match" (some 10) (some 6) (some 4)) true false
        payloadA emptyDB = .ok resultA_relevant ∧
    resultA_relevant.notify_attempted = true ∧
    (∃ m g, resultA_relevant.stored = some m ∧ m.is_relevant = some true ∧
      m.group_jid = some g ∧ g ≠ "" ∧ m ∈ resultA_relevant.db.messages) ∧
    MessageHandler.call settingsNone
        (.succeeds true "match" (some 10) (some 6) (some 4)) false false
        payloadA emptyDB =
      Except.map (fun r => { r with notify_succeeded := false })
        (MessageHandler.call settingsNone
          (.succeeds true "match" (some 10) (some 6) (some 4)) true false
          payloadA emptyDB) :=
  ⟨by decide, rfl,
   c8_dispatch_guard_and_failure_isolation.1 settingsNone
     (.succeeds true "match" (some 10) (some 6) (some 4)) true false payloadA
     emptyDB resultA_relevant (by decide) rfl,
   c8_dispatch_guard_and_failure_isolation.2 settingsNone
     (.succeeds true "match" (some 10) (some 6) (some 4)) false payloadA emptyDB⟩

end WaNotifier
